import Mathlib

/-!
# serialControl: `scl::serialAdapter` (src/SerialAdapter.cpp)

A shallow embedding of the `_WIN32` build of `serialAdapter`.

* The object's members are the `m...` fields of `serialAdapter`.
* The operating system is a deterministic oracle `Env`: every Win32 call made
  by the code asks the oracle for its outcome, indexed by the number of events
  logged so far, so successive calls may get different outcomes.
* Every Win32 call, thread start/join and listener callback is appended to
  the field `log`; the handles opened with `CreateFile` and not yet passed to a
  successful `CloseHandle` are kept in `openHandles`.
* The three worker loops are embedded one iteration at a time (`readIter`,
  `writeIter`, `detectIter`). `join` resumes the joined loop at its next
  observation point and comes back only when that loop has returned.
* A call that waits in `join` has an `Option` result: `none` means that the
  joined loop does not return, so the call never comes back.
-/

namespace scl

/-- Return codes of the adapter (`RET_CODE` of the header). -/
inductive RET_CODE
| SUCCESS
| FAILURE
| BAD_PARAMETER
deriving DecidableEq, Repr

/-- The enum `serialAdapter::Parity`. -/
inductive Parity
| NO_PARITY
| EVEN_PARITY
| MARK_PARITY
| ODD_PARITY
| SPACE_PARITY
deriving DecidableEq, Repr

/-- The enum `serialAdapter::DataBits`. -/
inductive DataBits
| DATA_BITS_5
| DATA_BITS_6
| DATA_BITS_7
| DATA_BITS_8
deriving DecidableEq, Repr

/-- The enum `serialAdapter::StopBits`. -/
inductive StopBits
| STOP_BITS_1
| STOP_BITS_1_5
| STOP_BITS_2
deriving DecidableEq, Repr

/-- Win32 `ERROR_FILE_NOT_FOUND`. -/
def ERROR_FILE_NOT_FOUND : Nat := 2

/-- Win32 `ERROR_ACCESS_DENIED`. -/
def ERROR_ACCESS_DENIED : Nat := 5

/-- Win32 `ERROR_IO_PENDING`. -/
def ERROR_IO_PENDING : Nat := 997

/-- The cast `static_cast<WORD>(size)`: a `WORD` is an unsigned 16-bit integer. -/
def castWORD (size : Nat) : Nat := size % 2 ^ 16

/-- A value stored in a `DWORD` (unsigned 32-bit). -/
def castDWORD (n : Nat) : Nat := n % 2 ^ 32

/-- Outcome of one `CreateFile` call: a valid handle, or `INVALID_HANDLE_VALUE`
together with the value `GetLastError()` then returns. -/
inductive CreateFileResult
| opened
| failed (lastError : Nat)
deriving DecidableEq, Repr

/-- Outcome of the Win32 calls made by `SetupSerialPort`. -/
inductive SetupResult
| ok
| getCommStateFailed
| setCommStateFailed
| clearCommErrorFailed
deriving DecidableEq, Repr

/-- Outcome of one `ReadFile(mComFile, &data, 1, &readLen, &osRead)` call.
`ret` is the returned BOOL and `lastError` the value of `GetLastError()` after a
FALSE return. `data` and `readLen` are what the transfer stores in the two
out-variables: by `ReadFile` itself when `ret` is true, by
`GetOverlappedResult(..., true)` when the call is pending. -/
structure ReadFileResult where
  ret : Bool
  lastError : Nat
  data : Nat
  readLen : Nat
deriving DecidableEq, Repr

/-- Outcome of one `WriteFile(mComFile, ptr, n, &writeByte, &osWrite)` call.
`ret` is the returned BOOL and `lastError` the value of `GetLastError()` after a
FALSE return. `written` is the byte count of the transfer: stored in
`writeByte` by `WriteFile` itself when `ret` is true, by
`GetOverlappedResult(..., true)` when the call is pending. -/
structure WriteFileResult where
  ret : Bool
  lastError : Nat
  written : Nat
deriving DecidableEq, Repr

/-- The operating system and the listeners' owners, as seen by the adapter.
The first argument of each call oracle is the number of events logged before
the call. `alive r` tells whether `r.lock()` yields a non-null pointer. -/
structure Env where
  createFile : Nat → Nat → CreateFileResult
  setupComm : Nat → SetupResult
  readFile : Nat → ReadFileResult
  writeFile : Nat → List Nat → WriteFileResult
  alive : Nat → Bool

/-- The three worker threads of the adapter. -/
inductive ThreadKind
| read
| detect
| write
deriving DecidableEq, Repr

/-- A `std::thread` member. `none` is a thread object without a thread of
execution (default constructed, or joined); `running` and `finished` are
joinable, the second after the thread function has returned. -/
inductive Thread
| none
| running (id : Nat)
| finished (id : Nat)
deriving DecidableEq, Repr

/-- The method `std::thread::joinable`. -/
def Thread.joinable : Thread → Bool
| .none => false
| .running _ => true
| .finished _ => true

/-- The method `std::thread::get_id`; `Option.none` is the id that represents no thread. -/
def Thread.get_id : Thread → Option Nat
| .none => Option.none
| .running id => some id
| .finished id => some id

/-- Whether the thread function is still executing. -/
def Thread.isRunning : Thread → Bool
| .running _ => true
| _ => false

/-- The thread function has returned: a running thread becomes finished. -/
def Thread.finish : Thread → Thread
| .running id => .finished id
| t => t

/-- What the adapter does to the outside world, in program order. -/
inductive Event
| createFile (port : Nat) (handle : Option Nat)
| setupSerialPort (handle : Nat) (baud : Nat) (parity : Parity) (bits : DataBits) (stop : StopBits)
| closeHandle (handle : Option Nat) (ok : Bool)
| readFile (handle : Option Nat)
| writeFile (handle : Option Nat) (bytes : List Nat)
| start (t : ThreadKind) (id : Nat)
| join (t : ThreadKind)
| onData (listener : Nat) (data : Nat)
| onClosed (listener : Nat)
deriving DecidableEq, Repr

/-- How a call ends: it returns a code, or an exception leaves it. -/
inductive Outcome
| returned (code : RET_CODE)
| threw (cause : SetupResult)
deriving DecidableEq, Repr

/-- Whether a worker loop is still in its `while (loop)` or has returned. -/
inductive LoopStatus
| running
| exited
deriving DecidableEq, Repr

/-- An element of `mQueue`: a `std::shared_ptr<std::vector<unsigned char>>`;
`none` is `nullptr`. -/
abbrev QueueItem := Option (List Nat)

/-- Modelled from the spec: the write queue class (declared in the header
`SerialAdapter.h`, absent from src/). `push` appends to the tail and always
succeeds. -/
def queuePush (q : List QueueItem) (item : QueueItem) : List QueueItem := q ++ [item]

/-- Modelled from the spec: the write queue class (declared in the header
`SerialAdapter.h`, absent from src/). `clear` empties the queue. -/
def queueClear (_q : List QueueItem) : List QueueItem := []

/-- Modelled from the spec: the write queue class (declared in the header
`SerialAdapter.h`, absent from src/). `wait_and_pop` returns the items in FIFO
order; on an empty queue the caller blocks, which is `none` here. -/
def queuePop : List QueueItem → Option (QueueItem × List QueueItem)
| [] => Option.none
| item :: rest => some (item, rest)

/-- The method `std::set::insert` on the listener set, keyed by the identity of
the reference: the new set and whether the insertion took place. -/
def setInsert (x : Nat) (s : List Nat) : List Nat × Bool :=
  if x ∈ s then (s, false) else (s.orderedInsert (fun a b => a ≤ b) x, true)

/-- The method `std::set::erase(key)`: the new set and the number of elements removed. -/
def setErase (x : Nat) (s : List Nat) : List Nat × Nat :=
  (s.filter (fun y => y ≠ x), s.count x)

/-- The members of `serialAdapter`, followed by the part of the outside world
the adapter acts on (`openHandles`, the fresh-name counters and `log`). -/
structure serialAdapter where
  mSerialOpend : Bool
  mComPort : Nat
  mBaudRate : Nat
  mParity : Parity
  mByteSize : DataBits
  mStopBit : StopBits
  mComFile : Option Nat
  mQueue : List QueueItem
  mListener : List Nat
  mReadThread : Thread
  mDetectThread : Thread
  mWriteThread : Thread
  mReadThreadQuit : Bool
  mDetectThreadQuit : Bool
  mWriteThreadQuit : Bool
  openHandles : List Nat
  nextHandle : Nat
  nextTid : Nat
  log : List Event
deriving DecidableEq, Repr

namespace serialAdapter

/-- A freshly constructed adapter: closed, no thread, empty queue and listener set. -/
def init : serialAdapter :=
  { mSerialOpend := false, mComPort := 0, mBaudRate := 0, mParity := .NO_PARITY,
    mByteSize := .DATA_BITS_8, mStopBit := .STOP_BITS_1, mComFile := Option.none,
    mQueue := [], mListener := [], mReadThread := .none, mDetectThread := .none,
    mWriteThread := .none, mReadThreadQuit := false, mDetectThreadQuit := false,
    mWriteThreadQuit := false, openHandles := [], nextHandle := 1, nextTid := 1, log := [] }

/-- Append one event to the log. -/
def emit (w : serialAdapter) (e : Event) : serialAdapter :=
  { w with log := w.log ++ [e] }

/-- The Win32 call `CloseHandle(h)`: succeeds, and releases the handle, exactly
when `h` is an open handle. -/
def closeHandle (w : serialAdapter) (h : Option Nat) : Bool × serialAdapter :=
  match h with
  | Option.none => (false, w.emit (.closeHandle h false))
  | some n =>
    if n ∈ w.openHandles then
      (true, { w with openHandles := w.openHandles.filter (fun x => x ≠ n),
                      log := w.log ++ [.closeHandle h true] })
    else (false, w.emit (.closeHandle h false))

/-- `serialAdapter::registerListener` (lines 22-33). -/
def registerListener (env : Env) (w : serialAdapter) (ptr : Nat) : RET_CODE × serialAdapter :=
  if env.alive ptr = false then (.BAD_PARAMETER, w)
  else
    let ret := setInsert ptr w.mListener
    if ret.2 then (.SUCCESS, { w with mListener := ret.1 })
    else (.FAILURE, { w with mListener := ret.1 })

/-- `serialAdapter::unRegisterListener` (lines 35-46). -/
def unRegisterListener (env : Env) (w : serialAdapter) (ptr : Nat) : RET_CODE × serialAdapter :=
  if env.alive ptr = false then (.BAD_PARAMETER, w)
  else
    let ret := setErase ptr w.mListener
    if ret.2 ≠ 0 then (.SUCCESS, { w with mListener := ret.1 })
    else (.FAILURE, { w with mListener := ret.1 })

/-- `serialAdapter::writeData` (lines 378-399): one `WriteFile` call asking for
`static_cast<WORD>(size)` bytes from `ptr`. -/
def writeData (env : Env) (w : serialAdapter) (ptr : List Nat) (size : Nat) :
    RET_CODE × serialAdapter :=
  let bytes := ptr.take (castWORD size)
  let r := env.writeFile w.log.length bytes
  let w1 := w.emit (.writeFile w.mComFile bytes)
  if r.ret = false then
    if r.lastError = ERROR_IO_PENDING then
      let writeByte := castDWORD r.written
      if writeByte = size then (.SUCCESS, w1) else (.FAILURE, w1)
    else (.SUCCESS, w1)
  else (.SUCCESS, w1)

/-- `serialAdapter::write_sync(unsigned char)` (lines 400-410). -/
def write_sync_byte (env : Env) (w : serialAdapter) (data : Nat) : RET_CODE × serialAdapter :=
  if w.mSerialOpend = false then (.FAILURE, w)
  else writeData env w [data] 1

/-- `serialAdapter::write_sync(std::shared_ptr<std::vector<unsigned char>>)`
(lines 411-420), for a non-null pointer. -/
def write_sync (env : Env) (w : serialAdapter) (dat : List Nat) : RET_CODE × serialAdapter :=
  if w.mSerialOpend = false then (.FAILURE, w)
  else writeData env w dat dat.length

/-- `serialAdapter::write_async(unsigned char)` (lines 421-427). -/
def write_async_byte (w : serialAdapter) (data : Nat) : RET_CODE × serialAdapter :=
  (.SUCCESS, { w with mQueue := queuePush w.mQueue (some [data]) })

/-- `serialAdapter::write_async(std::shared_ptr<std::vector<unsigned char>>)` (lines 428-432). -/
def write_async (w : serialAdapter) (data : QueueItem) : RET_CODE × serialAdapter :=
  (.SUCCESS, { w with mQueue := queuePush w.mQueue data })

/-- One pass through the body of the `while` loop of `serialAdapter::writeSerialData`
(lines 361-371). On an empty queue `wait_and_pop` blocks: nothing changes. -/
def writeIter (env : Env) (w : serialAdapter) : serialAdapter × LoopStatus :=
  match queuePop w.mQueue with
  | Option.none => (w, .running)
  | some (pData, rest) =>
    let w1 := { w with mQueue := rest }
    if w1.mWriteThreadQuit = true then
      ({ w1 with mQueue := queueClear w1.mQueue }, .exited)
    else
      match pData with
      | some buf => ((writeData env w1 buf buf.length).2, .running)
      | Option.none => (w1, .running)

/-- At most `n` passes of the loop of `writeSerialData`. -/
def writeSerialDataN (env : Env) : Nat → serialAdapter → serialAdapter × LoopStatus
| 0, w => (w, .running)
| n + 1, w =>
  match writeIter env w with
  | (w1, .exited) => (w1, .exited)
  | (w1, .running) => writeSerialDataN env n w1

/-- `serialAdapter::writeSerialData` (lines 357-373), run until it returns or
blocks in `wait_and_pop` on an empty queue: every pass pops one item, so the
length of the queue bounds the number of passes. -/
def writeSerialData (env : Env) (w : serialAdapter) : serialAdapter × LoopStatus :=
  writeSerialDataN env w.mQueue.length w

/-- The `onData` notification of lines 290-296: every reference of the set is
locked and the live ones are called. -/
def notifyData (env : Env) (w : serialAdapter) (data : Nat) : serialAdapter :=
  { w with log := w.log ++ (w.mListener.filter env.alive).map (fun l => Event.onData l data) }

/-- The `onClosed` notification of lines 344-350. -/
def notifyClosed (env : Env) (w : serialAdapter) : serialAdapter :=
  { w with log := w.log ++ (w.mListener.filter env.alive).map Event.onClosed }

/-- One pass through the body of the `while` loop of `serialAdapter::readSerialData`
(lines 278-297). -/
def readIter (env : Env) (w : serialAdapter) : serialAdapter × LoopStatus :=
  if w.mReadThreadQuit = true then (w, .exited)
  else
    let r := env.readFile w.log.length
    let w1 := w.emit (.readFile w.mComFile)
    let readLen : Nat :=
      if r.ret = false then
        if r.lastError = ERROR_IO_PENDING then castDWORD r.readLen else 0
      else castDWORD r.readLen
    let data : Nat :=
      if r.ret = false then
        if r.lastError = ERROR_IO_PENDING then r.data % 256 else 0
      else r.data % 256
    if readLen ≠ 0 then (notifyData env w1 data, .running)
    else (w1, .running)

/-- At most `n` passes of the loop of `serialAdapter::readSerialData` (lines 271-299). -/
def readSerialData (env : Env) : Nat → serialAdapter → serialAdapter × LoopStatus
| 0, w => (w, .running)
| n + 1, w =>
  match readIter env w with
  | (w1, .exited) => (w1, .exited)
  | (w1, .running) => readSerialData env n w1

/-- `mReadThread.join()` (line 51). A running read loop is resumed at its next
check of `mReadThreadQuit`; the join comes back, with the thread object empty,
only if the loop returns at that check, otherwise the caller waits for ever
(`none`). A thread whose function has already returned is joined at once;
the callers join only a joinable thread. -/
def joinRead (env : Env) (w : serialAdapter) : Option serialAdapter :=
  match w.mReadThread with
  | .running _ =>
    match readSerialData env 1 w with
    | (w1, .exited) => some { w1 with mReadThread := .none, log := w1.log ++ [.join .read] }
    | (_, .running) => Option.none
  | _ => some { w with mReadThread := .none, log := w.log ++ [.join .read] }

/-- `mWriteThread.join()` (line 70). A running write loop is resumed at
`wait_and_pop` and runs on the queue as it is; the join comes back, with the
thread object empty, only if the loop returns, and a loop left waiting on an
empty queue makes the caller wait for ever (`none`). A thread whose function
has already returned is joined at once;
the callers join only a joinable thread. -/
def joinWrite (env : Env) (w : serialAdapter) : Option serialAdapter :=
  match w.mWriteThread with
  | .running _ =>
    match writeSerialData env w with
    | (w1, .exited) => some { w1 with mWriteThread := .none, log := w1.log ++ [.join .write] }
    | (_, .running) => Option.none
  | _ => some { w with mWriteThread := .none, log := w.log ++ [.join .write] }

/-- `serialAdapter::quitReadThread` (lines 47-55); `none` when the join never comes back. -/
def quitReadThread (env : Env) (w : serialAdapter) : Option serialAdapter :=
  let w1 := { w with mReadThreadQuit := true }
  if w1.mReadThread.joinable then
    match joinRead env w1 with
    | some w2 => some { w2 with mReadThreadQuit := false }
    | Option.none => Option.none
  else some { w1 with mReadThreadQuit := false }

/-- `serialAdapter::quitWriteThread` (lines 65-74); `none` when the join never comes back. -/
def quitWriteThread (env : Env) (w : serialAdapter) : Option serialAdapter :=
  let w1 := { w with mWriteThreadQuit := true }
  if w1.mWriteThread.joinable then
    match joinWrite env { w1 with mQueue := queuePush w1.mQueue Option.none } with
    | some w2 => some { w2 with mWriteThreadQuit := false }
    | Option.none => Option.none
  else some { w1 with mWriteThreadQuit := false }

/-- `serialAdapter::checkPortAvaliable` (lines 301-328). -/
def checkPortAvaliable (env : Env) (w : serialAdapter) : RET_CODE × serialAdapter :=
  match env.createFile w.log.length w.mComPort with
  | .failed lastError =>
    let w1 := w.emit (.createFile w.mComPort Option.none)
    if lastError = ERROR_ACCESS_DENIED then (.FAILURE, w1)
    else if lastError = ERROR_FILE_NOT_FOUND then (.SUCCESS, w1)
    else (.FAILURE, w1)
  | .opened =>
    let comFile := w.nextHandle
    let w1 := { w with openHandles := w.openHandles ++ [comFile],
                       nextHandle := w.nextHandle + 1,
                       log := w.log ++ [.createFile w.mComPort (some comFile)] }
    (.SUCCESS, (closeHandle w1 (some comFile)).2)

/-- One pass through the body of the `while` loop of
`serialAdapter::detectSerialAvaliable` (lines 334-354); `none` when the pass
waits for ever in one of its two joins. -/
def detectIter (env : Env) (w : serialAdapter) : Option (serialAdapter × LoopStatus) :=
  if w.mDetectThreadQuit = true then some (w, .exited)
  else
    let probe := checkPortAvaliable env w
    if probe.1 = .SUCCESS then
      match quitReadThread env probe.2 with
      | Option.none => Option.none
      | some w1 =>
        match quitWriteThread env w1 with
        | Option.none => Option.none
        | some w2 =>
          let w3 := { w2 with mSerialOpend := false }
          some (notifyClosed env w3, .exited)
    else some (probe.2, .running)

/-- At most `n` passes of the loop of `serialAdapter::detectSerialAvaliable` (lines 330-356). -/
def detectSerialAvaliable (env : Env) :
    Nat → serialAdapter → Option (serialAdapter × LoopStatus)
| 0, w => some (w, .running)
| n + 1, w =>
  match detectIter env w with
  | Option.none => Option.none
  | some (w1, .exited) => some (w1, .exited)
  | some (w1, .running) => detectSerialAvaliable env n w1

/-- `mDetectThread.join()` (line 60). A running detect loop is resumed at its
next check of `mDetectThreadQuit`; the join comes back, with the thread object
empty, only if the loop returns at that check, otherwise the caller waits for
ever (`none`). A thread whose function has already returned is joined at once;
the callers join only a joinable thread. -/
def joinDetect (env : Env) (w : serialAdapter) : Option serialAdapter :=
  match w.mDetectThread with
  | .running _ =>
    match detectSerialAvaliable env 1 w with
    | some (w1, .exited) =>
      some { w1 with mDetectThread := .none, log := w1.log ++ [.join .detect] }
    | _ => Option.none
  | _ => some { w with mDetectThread := .none, log := w.log ++ [.join .detect] }

/-- `serialAdapter::quitDetectThread` (lines 56-64); `none` when the join never comes back. -/
def quitDetectThread (env : Env) (w : serialAdapter) : Option serialAdapter :=
  let w1 := { w with mDetectThreadQuit := true }
  if w1.mDetectThread.joinable then
    match joinDetect env w1 with
    | some w2 => some { w2 with mDetectThreadQuit := false }
    | Option.none => Option.none
  else some { w1 with mDetectThreadQuit := false }

/-- `serialAdapter::SetupSerialPort` (lines 225-268): the line settings are
handed to the driver; a failing `GetCommState`, `SetCommState` or
`ClearCommError` throws, otherwise the function returns SUCCESS. -/
def SetupSerialPort (env : Env) (w : serialAdapter) (file : Nat) (baud : Nat)
    (nParity : Parity) (nDatabits : DataBits) (nStopbits : StopBits) : Outcome × serialAdapter :=
  let r := env.setupComm w.log.length
  let w1 := w.emit (.setupSerialPort file baud nParity nDatabits nStopbits)
  match r with
  | .ok => (.returned .SUCCESS, w1)
  | e => (.threw e, w1)

/-- `serialAdapter::openSerialPort` (lines 124-151). -/
def openSerialPort (env : Env) (w : serialAdapter) : Outcome × serialAdapter :=
  match env.createFile w.log.length w.mComPort with
  | .failed _ =>
    (.returned .FAILURE,
      { w with mComFile := Option.none, log := w.log ++ [.createFile w.mComPort Option.none] })
  | .opened =>
    let h := w.nextHandle
    let w1 := { w with mComFile := some h, openHandles := w.openHandles ++ [h],
                       nextHandle := w.nextHandle + 1,
                       log := w.log ++ [.createFile w.mComPort (some h)] }
    match SetupSerialPort env w1 h w1.mBaudRate w1.mParity w1.mByteSize w1.mStopBit with
    | (.threw e, w2) => (.threw e, w2)
    | (.returned .SUCCESS, w2) => (.returned .SUCCESS, w2)
    | (.returned _, w2) => (.returned .FAILURE, (closeHandle w2 w2.mComFile).2)

/-- `serialAdapter::closeSerialPort` (lines 153-162). -/
def closeSerialPort (w : serialAdapter) : RET_CODE × serialAdapter :=
  let r := closeHandle w w.mComFile
  if r.1 then (.SUCCESS, r.2) else (.FAILURE, r.2)

/-- Start a worker: the thread object gets a fresh thread of execution. -/
def startThread (w : serialAdapter) (k : ThreadKind) : serialAdapter :=
  let id := w.nextTid
  let w1 := { w with nextTid := w.nextTid + 1, log := w.log ++ [Event.start k id] }
  match k with
  | .read => { w1 with mReadThread := .running id }
  | .detect => { w1 with mDetectThread := .running id }
  | .write => { w1 with mWriteThread := .running id }

end serialAdapter

/-- `serialAdapter::open` (lines 75-106), called from the thread `caller`;
`none` when one of the three joins never comes back. -/
def serialAdapter.open (env : Env) (w : serialAdapter) (caller : Nat) (port : Nat) (nBaud : Nat)
    (nParity : Parity) (nByteSize : DataBits) (nStopBit : StopBits) :
    Option (Outcome × serialAdapter) :=
  if w.mSerialOpend = true then some (.returned .SUCCESS, w)
  else
    let w1 := { w with mComPort := port, mParity := nParity, mByteSize := nByteSize,
                       mStopBit := nStopBit, mBaudRate := nBaud,
                       mQueue := queueClear w.mQueue }
    if some caller = w1.mReadThread.get_id ∨ some caller = w1.mDetectThread.get_id then
      some (.returned .FAILURE, w1)
    else
      match openSerialPort env w1 with
      | (.threw e, w2) => some (.threw e, w2)
      | (.returned .SUCCESS, w2) =>
        match quitReadThread env w2 with
        | Option.none => Option.none
        | some w3 =>
          match quitDetectThread env w3 with
          | Option.none => Option.none
          | some w4 =>
            match quitWriteThread env w4 with
            | Option.none => Option.none
            | some w5 =>
              let w6 := startThread w5 .read
              let w7 := startThread w6 .detect
              let w8 := startThread w7 .write
              some (.returned .SUCCESS, { w8 with mSerialOpend := true })
      | (.returned _, w2) => some (.returned .FAILURE, w2)

namespace serialAdapter

/-- `serialAdapter::close` (lines 108-122), called from the thread `caller`;
`none` when one of the three joins never comes back. -/
def close (env : Env) (w : serialAdapter) (caller : Nat) : Option (RET_CODE × serialAdapter) :=
  if w.mSerialOpend = false then some (.SUCCESS, w)
  else if some caller = w.mReadThread.get_id ∨ some caller = w.mDetectThread.get_id then
    some (.FAILURE, w)
  else
    match quitReadThread env w with
    | Option.none => Option.none
    | some w1 =>
      match quitWriteThread env w1 with
      | Option.none => Option.none
      | some w2 =>
        match quitDetectThread env w2 with
        | Option.none => Option.none
        | some w3 =>
          let w4 := (closeSerialPort w3).2
          some (.SUCCESS, { w4 with mSerialOpend := false })

/-- The detect thread runs one pass of its loop; when the loop returns, the
thread function has returned. A detect thread that is not running does nothing;
`none` when the pass never ends. -/
def detectStep (env : Env) (w : serialAdapter) : Option serialAdapter :=
  match w.mDetectThread with
  | .running _ =>
    match detectIter env w with
    | Option.none => Option.none
    | some (w1, .exited) => some { w1 with mDetectThread := w1.mDetectThread.finish }
    | some (w1, .running) => some w1
  | _ => some w

end serialAdapter

end scl

namespace scl

/-- The queue `quitWriteThread` leaves: a running write loop pops one item, sees
the flag and clears the queue; a write thread that already returned leaves the
sentinel behind; without a thread nothing is pushed. -/
def queueAfterQuit (w : serialAdapter) : List QueueItem :=
  match w.mWriteThread with
  | .none => w.mQueue
  | .running _ => []
  | .finished _ => w.mQueue ++ [Option.none]

/-- The adapter when `quitReadThread` has come back. -/
def afterQuitRead (w : serialAdapter) : serialAdapter :=
  { w with mReadThread := .none, mReadThreadQuit := false,
           log := w.log ++ (if w.mReadThread.joinable then [Event.join .read] else []) }

/-- The adapter when `quitWriteThread` has come back. -/
def afterQuitWrite (w : serialAdapter) : serialAdapter :=
  { w with mQueue := queueAfterQuit w, mWriteThread := .none, mWriteThreadQuit := false,
           log := w.log ++ (if w.mWriteThread.joinable then [Event.join .write] else []) }

/-- The adapter when `quitDetectThread` has come back. -/
def afterQuitDetect (w : serialAdapter) : serialAdapter :=
  { w with mDetectThread := .none, mDetectThreadQuit := false,
           log := w.log ++ (if w.mDetectThread.joinable then [Event.join .detect] else []) }

/-- The adapter after `write_async` of each buffer of `bs`, in order. -/
def pushAll (w : serialAdapter) (bs : List (List Nat)) : serialAdapter :=
  bs.foldl (fun v b => (serialAdapter.write_async v (some b)).2) w

/-- The `WriteFile` call made for the buffer `b` on the handle `h`. -/
def writeEvent (h : Option Nat) (b : List Nat) : Event :=
  .writeFile h (b.take (castWORD b.length))

/-- A schedule of the write path: the application queues a buffer with
`write_async`, or the write thread makes one pass of its loop. -/
inductive WriteSched
| push (b : List Nat)
| pass
deriving DecidableEq, Repr

/-- The adapter after a schedule of pushes and write-loop passes. -/
def runWriteSched (env : Env) : serialAdapter → List WriteSched → serialAdapter
| w, [] => w
| w, .push b :: rest => runWriteSched env (serialAdapter.write_async w (some b)).2 rest
| w, .pass :: rest => runWriteSched env (serialAdapter.writeIter env w).1 rest

/-- The buffers a schedule queues, in order. -/
def pushed : List WriteSched → List (List Nat)
| [] => []
| .push b :: rest => b :: pushed rest
| .pass :: rest => pushed rest

/-- On an open adapter the handle member is one of the open handles. -/
def handleLive (w : serialAdapter) : Prop :=
  w.mSerialOpend = true → ∃ h ∈ w.openHandles, w.mComFile = some h

instance (w : serialAdapter) : Decidable (handleLive w) := by
  unfold handleLive
  infer_instance

/-- The joins `close` performs, in program order: a thread is joined when it is joinable. -/
def joinEvents (w : serialAdapter) : List Event :=
  (if w.mReadThread.joinable then [Event.join .read] else []) ++
  (if w.mWriteThread.joinable then [Event.join .write] else []) ++
  (if w.mDetectThread.joinable then [Event.join .detect] else [])

/-- The lifecycle steps of the adapter: a call of `open`, a call of `close`,
and one pass of the detect loop on its own thread. -/
inductive Step
| open (caller port nBaud : Nat) (nParity : Parity) (nByteSize : DataBits) (nStopBit : StopBits)
| close (caller : Nat)
| detect
deriving DecidableEq, Repr

/-- The adapter after one lifecycle step; `none` when the step never ends. -/
def step (env : Env) (w : serialAdapter) : Step → Option serialAdapter
| .open caller port nBaud nParity nByteSize nStopBit =>
  (serialAdapter.open env w caller port nBaud nParity nByteSize nStopBit).map Prod.snd
| .close caller => (serialAdapter.close env w caller).map Prod.snd
| .detect => serialAdapter.detectStep env w

/-- The adapter after a sequence of lifecycle steps, each one started when the
one before has ended. -/
def run (env : Env) : serialAdapter → List Step → Option serialAdapter
| w, [] => some w
| w, st :: rest =>
  match step env w st with
  | Option.none => Option.none
  | some w1 => run env w1 rest

/-! ## Concrete environments and states used to evaluate the code -/

/-- A transfer that completes at once and moves every requested byte. -/
def writeAll (bytes : List Nat) : WriteFileResult :=
  { ret := true, lastError := 0, written := bytes.length }

/-- A read that completes at once with the byte `0x41`. -/
def readOne : ReadFileResult :=
  { ret := true, lastError := 0, data := 0x41, readLen := 1 }

/-- The device is present: the first `CreateFile` opens it, every later one is
refused with `ERROR_ACCESS_DENIED` because the adapter holds the port; reads and
writes complete; the listeners 1 and 2 are alive, every other reference is expired. -/
def envPresent : Env :=
  { createFile := fun t _ => if t = 0 then .opened else .failed ERROR_ACCESS_DENIED,
    setupComm := fun _ => .ok,
    readFile := fun _ => readOne,
    writeFile := fun _ bytes => writeAll bytes,
    alive := fun r => decide (r = 1 ∨ r = 2) }

/-- The device is removed after the port was opened: every `CreateFile` after
the first fails with `ERROR_FILE_NOT_FOUND`. -/
def envUnplugged : Env :=
  { envPresent with
    createFile := fun t _ => if t = 0 then .opened else .failed ERROR_FILE_NOT_FOUND }

/-- Every `WriteFile` fails at once with `ERROR_ACCESS_DENIED` and moves no byte. -/
def envWriteFails : Env :=
  { envPresent with
    writeFile := fun _ _ => { ret := false, lastError := ERROR_ACCESS_DENIED, written := 0 } }

/-- Every `WriteFile` returns TRUE having moved no byte. -/
def envWriteNothing : Env :=
  { envPresent with
    writeFile := fun _ _ => { ret := true, lastError := 0, written := 0 } }

/-- Every `ReadFile` fails at once with `ERROR_ACCESS_DENIED`. -/
def envReadFails : Env :=
  { envPresent with
    readFile := fun _ => { ret := false, lastError := ERROR_ACCESS_DENIED, data := 0, readLen := 0 } }

/-- The adapter after `open(3, 9600, NO_PARITY, DATA_BITS_8, STOP_BITS_1)` by
the application thread 0 on a present device: handle 1, threads 1, 2 and 3. -/
def openedState : serialAdapter :=
  { serialAdapter.init with
    mSerialOpend := true, mComPort := 3, mBaudRate := 9600, mComFile := some 1,
    mReadThread := .running 1, mDetectThread := .running 2, mWriteThread := .running 3,
    openHandles := [1], nextHandle := 2, nextTid := 4,
    log := [.createFile 3 (some 1),
            .setupSerialPort 1 9600 .NO_PARITY .DATA_BITS_8 .STOP_BITS_1,
            .start .read 1, .start .detect 2, .start .write 3] }

/-- The opened adapter with the listeners 1 (alive), 2 (alive) and 7 (expired) in its set. -/
def openedWithListeners : serialAdapter :=
  { openedState with mListener := [1, 2, 7] }

/-- The opened adapter after `write_async(nullptr)` and then `write_async` of the buffer `[0x41]`. -/
def sentinelThenData : serialAdapter :=
  (serialAdapter.write_async (serialAdapter.write_async openedState Option.none).2 (some [0x41])).2

/-- The device is removed after the port was opened and plugged in again later:
the `CreateFile` of the probe (the sixth event) fails with `ERROR_FILE_NOT_FOUND`,
every other one opens the port. -/
def envReplugged : Env :=
  { envPresent with
    createFile := fun t _ => if t = 5 then .failed ERROR_FILE_NOT_FOUND else .opened }

end scl

namespace scl

open serialAdapter

/-! ## Listener registry -/

theorem setInsert_mem (x : Nat) (s : List Nat) (y : Nat) :
    y ∈ (setInsert x s).1 ↔ y = x ∨ y ∈ s := by
  unfold setInsert
  by_cases h : x ∈ s
  · simp only [h, if_true]
    constructor
    · intro hy; exact Or.inr hy
    · rintro (rfl | hy)
      · exact h
      · exact hy
  · simp [h, List.mem_orderedInsert]

theorem setInsert_nodup (x : Nat) (s : List Nat) (hs : s.Nodup) : (setInsert x s).1.Nodup := by
  unfold setInsert
  by_cases h : x ∈ s
  · simpa [h] using hs
  · simp only [h, if_false]
    exact (List.perm_orderedInsert _ x s).nodup_iff.mpr (List.nodup_cons.mpr ⟨h, hs⟩)

theorem setErase_nodup (x : Nat) (s : List Nat) (hs : s.Nodup) : (setErase x s).1.Nodup := by
  unfold setErase
  exact hs.filter _

/-- C2: for a live reference `r`, `registerListener` returns SUCCESS exactly
when `r` is not yet in the set and then the set gains `r` and nothing else;
otherwise it returns FAILURE and the adapter is unchanged. `unRegisterListener`
returns SUCCESS exactly when `r` is in the set and then the set loses `r` and
nothing else; otherwise it returns FAILURE and the adapter is unchanged.
Registering the same reference twice fails the second time. -/
theorem listener_register_unregister (env : Env) (w : serialAdapter) (r : Nat)
    (hr : env.alive r = true) :
    ((registerListener env w r).1 = .SUCCESS ↔ r ∉ w.mListener) ∧
    (r ∉ w.mListener →
      (registerListener env w r).2 = { w with mListener := (registerListener env w r).2.mListener } ∧
      ∀ x, x ∈ (registerListener env w r).2.mListener ↔ x = r ∨ x ∈ w.mListener) ∧
    (r ∈ w.mListener → registerListener env w r = (.FAILURE, w)) ∧
    ((unRegisterListener env w r).1 = .SUCCESS ↔ r ∈ w.mListener) ∧
    (r ∈ w.mListener →
      (unRegisterListener env w r).2 = { w with mListener := (unRegisterListener env w r).2.mListener } ∧
      ∀ x, x ∈ (unRegisterListener env w r).2.mListener ↔ x ∈ w.mListener ∧ x ≠ r) ∧
    (r ∉ w.mListener → unRegisterListener env w r = (.FAILURE, w)) ∧
    (registerListener env (registerListener env w r).2 r).1 = .FAILURE := by
  have hreg_in : r ∈ w.mListener → registerListener env w r = (.FAILURE, w) := by
    intro h
    simp [registerListener, hr, setInsert, h]
  have hreg_out : r ∉ w.mListener →
      registerListener env w r =
        (.SUCCESS, { w with mListener := w.mListener.orderedInsert (fun a b => a ≤ b) r }) := by
    intro h
    simp [registerListener, hr, setInsert, h]
  have hun_in : r ∈ w.mListener →
      unRegisterListener env w r =
        (.SUCCESS, { w with mListener := w.mListener.filter (fun y => y ≠ r) }) := by
    intro h
    have hc : ¬ List.count r w.mListener = 0 := by
      rw [List.count_eq_zero]; exact fun hn => hn h
    simp [unRegisterListener, hr, setErase, hc]
  have hun_out : r ∉ w.mListener → unRegisterListener env w r = (.FAILURE, w) := by
    intro h
    have hf : w.mListener.filter (fun y => decide (y ≠ r)) = w.mListener := by
      rw [List.filter_eq_self]
      intro a ha
      have : a ≠ r := fun e => h (e ▸ ha)
      simpa using this
    have hc : List.count r w.mListener = 0 := List.count_eq_zero.mpr h
    unfold unRegisterListener setErase
    rw [hf, hc]
    simp [hr]
  refine ⟨?_, ?_, hreg_in, ?_, ?_, hun_out, ?_⟩
  · constructor
    · intro hs hin
      rw [hreg_in hin] at hs
      simp at hs
    · intro hout
      rw [hreg_out hout]
  · intro hout
    rw [hreg_out hout]
    refine ⟨rfl, ?_⟩
    intro x
    simp [List.mem_orderedInsert]
  · constructor
    · intro hs
      by_contra hout
      rw [hun_out hout] at hs
      simp at hs
    · intro hin
      rw [hun_in hin]
  · intro hin
    rw [hun_in hin]
    refine ⟨rfl, ?_⟩
    intro x
    simp [List.mem_filter]
  · by_cases hin : r ∈ w.mListener
    · rw [hreg_in hin, hreg_in hin]
    · rw [hreg_out hin]
      have : r ∈ ({ w with mListener := w.mListener.orderedInsert (fun a b => a ≤ b) r } :
          serialAdapter).mListener := by
        simp [List.mem_orderedInsert]
      simp [registerListener, hr, setInsert, this]

/-- C2, at the opened adapter with the set {1, 2, 7} and the live reference 1. -/
theorem listener_register_unregister_witness :
    envPresent.alive 1 = true ∧
    ((registerListener envPresent openedWithListeners 1).1 = .SUCCESS ↔
      1 ∉ openedWithListeners.mListener) :=
  ⟨by decide, (listener_register_unregister envPresent openedWithListeners 1 (by decide)).1⟩

/-! ## `open` on an open adapter -/

/-- On a present device, `open(3, 9600, NO_PARITY, DATA_BITS_8, STOP_BITS_1)` by
the application thread 0 on a fresh adapter returns SUCCESS and gives `openedState`. -/
theorem open_fresh_adapter :
    serialAdapter.open envPresent serialAdapter.init 0 3 9600 .NO_PARITY .DATA_BITS_8
      .STOP_BITS_1 = some (.returned .SUCCESS, openedState) := by
  decide

/-- C1: on an adapter that is open, `open` returns SUCCESS for every
configuration and every caller, and the adapter is exactly as before: same
stored configuration, queue, handle, threads, open handles and event log. -/
theorem open_when_open (env : Env) (w : serialAdapter) (caller port nBaud : Nat)
    (nParity : Parity) (nByteSize : DataBits) (nStopBit : StopBits)
    (hopen : w.mSerialOpend = true) :
    serialAdapter.open env w caller port nBaud nParity nByteSize nStopBit =
      some (.returned .SUCCESS, w) := by
  simp [serialAdapter.open, hopen]

/-- C1, at the adapter opened on port 3 and asked to open port 4 with other settings. -/
theorem open_when_open_witness :
    openedState.mSerialOpend = true ∧
    serialAdapter.open envUnplugged openedState 0 4 115200 .EVEN_PARITY .DATA_BITS_7 .STOP_BITS_2 =
      some (.returned .SUCCESS, openedState) :=
  ⟨by decide, open_when_open envUnplugged openedState 0 4 115200 .EVEN_PARITY .DATA_BITS_7
    .STOP_BITS_2 (by decide)⟩

/-! ## Stopping the workers -/

theorem readIter_quit (env : Env) (w : serialAdapter) (h : w.mReadThreadQuit = true) :
    readIter env w = (w, .exited) := by
  simp [readIter, h]

theorem detectIter_quit (env : Env) (w : serialAdapter) (h : w.mDetectThreadQuit = true) :
    detectIter env w = some (w, .exited) := by
  simp [detectIter, h]

theorem writeSerialData_quit (env : Env) (w : serialAdapter) (h : w.mWriteThreadQuit = true)
    (hq : w.mQueue ≠ []) :
    writeSerialData env w = ({ w with mQueue := [] }, .exited) := by
  unfold writeSerialData
  cases hqq : w.mQueue with
  | nil => exact absurd hqq hq
  | cons item rest =>
    simp [writeSerialDataN, writeIter, queuePop, queueClear, hqq, h]

/-- What `quitReadThread` does: it comes back, because a read loop resumed with
the flag set returns at its first check; the read thread is joined when joinable
and the flag ends false. -/
theorem quitReadThread_eq (env : Env) (w : serialAdapter) :
    quitReadThread env w = some (afterQuitRead w) := by
  rcases hT : w.mReadThread with _ | id | id <;>
    simp [quitReadThread, joinRead, readSerialData, readIter, Thread.joinable, hT, afterQuitRead]

/-- What `quitDetectThread` does: it comes back, because a detect loop resumed
with the flag set returns at its first check; the detect thread is joined when
joinable and the flag ends false. -/
theorem quitDetectThread_eq (env : Env) (w : serialAdapter) :
    quitDetectThread env w = some (afterQuitDetect w) := by
  rcases hT : w.mDetectThread with _ | id | id <;>
    simp [quitDetectThread, joinDetect, detectSerialAvaliable, detectIter, Thread.joinable, hT,
      afterQuitDetect]

/-- What `quitWriteThread` does: it comes back, because the sentinel it pushes
lets a write loop waiting in `wait_and_pop` pop an item and see the flag; no
`WriteFile` call is made, the write thread is joined when joinable and the flag
ends false. -/
theorem quitWriteThread_eq (env : Env) (w : serialAdapter) :
    quitWriteThread env w = some (afterQuitWrite w) := by
  rcases w with ⟨o, port, baud, par, bs, sb, cf, q, l, rt, dt, wt, rq, dq, wq, oh, nh, nt, lg⟩
  rcases wt with _ | id | id
  · simp [quitWriteThread, Thread.joinable, queueAfterQuit, afterQuitWrite]
  · cases q <;>
      simp [quitWriteThread, joinWrite, writeSerialData, writeSerialDataN, writeIter, queuePop,
        queuePush, queueClear, Thread.joinable, queueAfterQuit, afterQuitWrite]
  · simp [quitWriteThread, joinWrite, Thread.joinable, queueAfterQuit, queuePush, afterQuitWrite]

/-- Without the sentinel a running write loop that finds the queue empty stays
in `wait_and_pop`, and a join on it never comes back. -/
theorem joinWrite_empty_queue_blocks (env : Env) (w : serialAdapter) (id : Nat)
    (hT : w.mWriteThread = .running id) (hq : w.mQueue = []) :
    joinWrite env w = Option.none := by
  simp [joinWrite, hT, writeSerialData, writeSerialDataN, hq]

/-- A read loop whose flag is false does not return at its check, and a join on
it never comes back. -/
theorem joinRead_without_flag_blocks (env : Env) (w : serialAdapter) (id : Nat)
    (hT : w.mReadThread = .running id) (hflag : w.mReadThreadQuit = false) :
    joinRead env w = Option.none := by
  have h : (readIter env w).2 = .running := by
    simp only [readIter, hflag, Bool.false_eq_true, if_false]
    split_ifs <;> rfl
  have h2 : readSerialData env 1 w = ((readIter env w).1, .running) := by
    rcases hr : readIter env w with ⟨w1, st⟩
    rw [hr] at h
    simp only at h
    subst h
    simp [readSerialData, hr]
  simp [joinRead, hT, h2]

/-! ## `writeData` -/

/-- The event `writeData` logs and the only case in which it reports a failure. -/
theorem writeData_eq (env : Env) (w : serialAdapter) (ptr : List Nat) (size : Nat) :
    writeData env w ptr size =
      (if (env.writeFile w.log.length (ptr.take (castWORD size))).ret = false ∧
          (env.writeFile w.log.length (ptr.take (castWORD size))).lastError = ERROR_IO_PENDING ∧
          castDWORD (env.writeFile w.log.length (ptr.take (castWORD size))).written ≠ size
        then RET_CODE.FAILURE else RET_CODE.SUCCESS,
       w.emit (.writeFile w.mComFile (ptr.take (castWORD size)))) := by
  unfold writeData
  by_cases h1 : (env.writeFile w.log.length (ptr.take (castWORD size))).ret = false
  · by_cases h2 : (env.writeFile w.log.length (ptr.take (castWORD size))).lastError = ERROR_IO_PENDING
    · by_cases h3 : castDWORD (env.writeFile w.log.length (ptr.take (castWORD size))).written = size
      · simp [h1, h2, h3]
      · simp [h1, h2, h3]
    · simp [h1, h2]
  · simp [h1]

/-- C10: for a buffer of length `n`, `writeData` issues one `WriteFile` whose
byte count is `n mod 2^16` (the first `n mod 2^16` bytes of the buffer); that
count is `n` exactly when `n < 65536` and is smaller than `n` from 65536 on;
when the call is pending, the result is SUCCESS exactly when the transferred
count equals the untruncated `n`. `write_sync` on an open adapter and the
write loop both hand the buffer with its full length to `writeData`. -/
theorem writeData_requests_word_length (env : Env) (w : serialAdapter) (buf : List Nat) :
    (writeData env w buf buf.length).2.log =
        w.log ++ [.writeFile w.mComFile (buf.take (buf.length % 2 ^ 16))] ∧
    (buf.take (buf.length % 2 ^ 16)).length = buf.length % 2 ^ 16 ∧
    (buf.length % 2 ^ 16 = buf.length ↔ buf.length < 65536) ∧
    (65536 ≤ buf.length → buf.length % 2 ^ 16 < buf.length) ∧
    ((env.writeFile w.log.length (buf.take (buf.length % 2 ^ 16))).ret = false →
      (env.writeFile w.log.length (buf.take (buf.length % 2 ^ 16))).lastError = ERROR_IO_PENDING →
      ((writeData env w buf buf.length).1 = .SUCCESS ↔
        (env.writeFile w.log.length (buf.take (buf.length % 2 ^ 16))).written % 2 ^ 32
          = buf.length)) ∧
    (w.mSerialOpend = true → write_sync env w buf = writeData env w buf buf.length) ∧
    (∀ rest, w.mWriteThreadQuit = false → w.mQueue = some buf :: rest →
      writeIter env w = ((writeData env { w with mQueue := rest } buf buf.length).2, .running)) := by
  have hlt : buf.length % 2 ^ 16 < 2 ^ 16 := Nat.mod_lt _ (by norm_num)
  have hle : buf.length % 2 ^ 16 ≤ buf.length := Nat.mod_le _ _
  refine ⟨?_, ?_, ?_, ?_, ?_, ?_, ?_⟩
  · rw [writeData_eq]
    simp [emit, castWORD]
  · rw [List.length_take]
    exact Nat.min_eq_left hle
  · constructor
    · intro h
      have : buf.length < 2 ^ 16 := by rw [← h]; exact hlt
      simpa using this
    · intro h
      exact Nat.mod_eq_of_lt (by simpa using h)
  · intro h
    have h2 : (2 : Nat) ^ 16 ≤ buf.length := by simpa using h
    omega
  · intro h1 h2
    rw [writeData_eq]
    simp only [castWORD, castDWORD, h1, h2, true_and]
    by_cases h3 : (env.writeFile w.log.length (buf.take (buf.length % 2 ^ 16))).written % 2 ^ 32
        = buf.length
    · simp [h3]
    · simp [h3]
  · intro h
    simp [write_sync, h]
  · intro rest hq hqu
    simp [writeIter, queuePop, hqu, hq]

/-- C10, at a pending transfer of a two-byte buffer on the opened adapter. -/
theorem writeData_requests_word_length_witness :
    (writeData envPresent openedState [0x41, 0x42] 2).2.log =
      openedState.log ++ [.writeFile openedState.mComFile ([0x41, 0x42].take (2 % 2 ^ 16))] :=
  (writeData_requests_word_length envPresent openedState [0x41, 0x42]).1

/-- C5, evaluated: a `WriteFile` that fails at once with `ERROR_ACCESS_DENIED`
and moves no byte makes `writeData` and `write_sync` return SUCCESS, and so
does a `WriteFile` that returns TRUE after moving 0 of 2 bytes. -/
theorem writeData_success_on_failed_write :
    (writeData envWriteFails openedState [0x41] 1).1 = .SUCCESS ∧
    (write_sync envWriteFails openedState [0x41]).1 = .SUCCESS ∧
    (write_sync_byte envWriteFails openedState 0x41).1 = .SUCCESS ∧
    (write_sync envWriteNothing openedState [0x41, 0x42]).1 = .SUCCESS := by
  decide

/-- The result of `writeData` is FAILURE only for a pending transfer whose
final count differs from `size`; every other outcome gives SUCCESS. -/
theorem writeData_failure_iff (env : Env) (w : serialAdapter) (ptr : List Nat) (size : Nat) :
    (writeData env w ptr size).1 = .FAILURE ↔
      ((env.writeFile w.log.length (ptr.take (castWORD size))).ret = false ∧
       (env.writeFile w.log.length (ptr.take (castWORD size))).lastError = ERROR_IO_PENDING ∧
       castDWORD (env.writeFile w.log.length (ptr.take (castWORD size))).written ≠ size) := by
  rw [writeData_eq]
  by_cases h : (env.writeFile w.log.length (ptr.take (castWORD size))).ret = false ∧
      (env.writeFile w.log.length (ptr.take (castWORD size))).lastError = ERROR_IO_PENDING ∧
      castDWORD (env.writeFile w.log.length (ptr.take (castWORD size))).written ≠ size
  · rw [if_pos h]
    exact ⟨fun _ => h, fun _ => rfl⟩
  · rw [if_neg h]
    exact ⟨fun hc => RET_CODE.noConfusion hc, fun hc => absurd hc h⟩

/-! ## The write loop -/

/-- C8 as stated fails: with the write flag false the loop pops the null item,
keeps running with the rest of the queue in place, and then writes the item
that was queued behind it. -/
theorem sentinel_without_quit_flag_keeps_writing :
    sentinelThenData.mQueue = [Option.none, some [0x41]] ∧
    sentinelThenData.mWriteThreadQuit = false ∧
    (writeIter envPresent sentinelThenData).2 = .running ∧
    (writeIter envPresent sentinelThenData).1.mQueue = [some [0x41]] ∧
    (writeSerialData envPresent sentinelThenData).1.log =
      sentinelThenData.log ++ [.writeFile (some 1) [0x41]] ∧
    (writeSerialData envPresent sentinelThenData).2 = .running := by
  decide

/-- C8, amended: when the write loop pops the sentinel while the write
cancellation flag is true, it issues no `WriteFile` for the sentinel or for any
item still queued, empties the queue and returns, so that no later pass can
write; while the flag is false the sentinel is skipped without a write and the
loop keeps running on the rest of the queue. -/
theorem writeIter_sentinel (env : Env) (w : serialAdapter) (rest : List QueueItem)
    (hq : w.mQueue = Option.none :: rest) :
    (w.mWriteThreadQuit = true →
      writeIter env w = ({ w with mQueue := [] }, .exited) ∧
      writeSerialData env w = ({ w with mQueue := [] }, .exited)) ∧
    (w.mWriteThreadQuit = false →
      writeIter env w = ({ w with mQueue := rest }, .running)) := by
  constructor
  · intro hflag
    refine ⟨?_, writeSerialData_quit env w hflag (by simp [hq])⟩
    simp [writeIter, queuePop, queueClear, hq, hflag]
  · intro hflag
    simp [writeIter, queuePop, hq, hflag]

/-- C8 amended, at the queue `[nullptr, [0x41]]` with the write flag set. -/
theorem writeIter_sentinel_witness :
    ({ sentinelThenData with mWriteThreadQuit := true } : serialAdapter).mQueue
      = Option.none :: [some [0x41]] ∧
    (({ sentinelThenData with mWriteThreadQuit := true } : serialAdapter).mWriteThreadQuit = true →
      writeIter envPresent { sentinelThenData with mWriteThreadQuit := true } =
        ({ { sentinelThenData with mWriteThreadQuit := true } with mQueue := [] }, .exited) ∧
      writeSerialData envPresent { sentinelThenData with mWriteThreadQuit := true } =
        ({ { sentinelThenData with mWriteThreadQuit := true } with mQueue := [] }, .exited)) :=
  ⟨by decide,
    (writeIter_sentinel envPresent { sentinelThenData with mWriteThreadQuit := true }
      [some [0x41]] (by decide)).1⟩

theorem pushAll_eq (bs : List (List Nat)) (w : serialAdapter) :
    pushAll w bs = { w with mQueue := w.mQueue ++ bs.map some } := by
  induction bs generalizing w with
  | nil => simp [pushAll]
  | cons b bs ih =>
    have h := ih (write_async w (some b)).2
    simp only [pushAll, List.foldl_cons] at h ⊢
    rw [h]
    simp [write_async, queuePush]

theorem writeSerialDataN_empty (env : Env) (n : Nat) (w : serialAdapter) (hq : w.mQueue = []) :
    writeSerialDataN env n w = (w, .running) := by
  induction n with
  | zero => rfl
  | succ n ihn => simp only [writeSerialDataN, writeIter, queuePop, hq, ihn]

theorem writeSerialDataN_drain (env : Env) (bs : List (List Nat)) :
    ∀ (n : Nat) (w : serialAdapter), w.mWriteThreadQuit = false → w.mQueue = bs.map some →
      bs.length ≤ n →
      writeSerialDataN env n w =
        ({ w with mQueue := [], log := w.log ++ bs.map (writeEvent w.mComFile) }, .running) := by
  induction bs with
  | nil =>
    intro n w _ hq _
    have hq2 : w.mQueue = [] := by simpa using hq
    rw [writeSerialDataN_empty env n w hq2]
    rcases w with ⟨o, port, baud, par, bs, sb, cf, q, l, rt, dt, wt, rq, dq, wq, oh, nh, nt, lg⟩
    simp only at hq2
    subst hq2
    simp
  | cons b bs ih =>
    intro n w hflag hq hn
    cases n with
    | zero => simp at hn
    | succ n =>
      have hn2 : bs.length ≤ n := by simpa using hn
      have hq2 : w.mQueue = some b :: bs.map some := by simpa using hq
      have hiter : writeIter env w =
          ({ w with mQueue := bs.map some, log := w.log ++ [writeEvent w.mComFile b] },
            .running) := by
        simp [writeIter, queuePop, hq2, hflag, writeData_eq, emit, writeEvent]
      simp only [writeSerialDataN, hiter]
      refine (ih n _ ?_ ?_ hn2).trans ?_
      · exact hflag
      · rfl
      · simp

/-- Buffers queued with `write_async` while the write flag is false are handed
to `WriteFile` one call per buffer, in the order they were queued; each call
asks for the first `length mod 2^16` bytes of its buffer. -/
theorem write_async_fifo (env : Env) (w : serialAdapter) (bs : List (List Nat))
    (hflag : w.mWriteThreadQuit = false) (hq : w.mQueue = []) :
    writeSerialData env (pushAll w bs) =
      ({ w with log := w.log ++ bs.map (writeEvent w.mComFile) }, .running) := by
  unfold writeSerialData
  rw [pushAll_eq]
  have h := writeSerialDataN_drain env bs (bs.length)
    { w with mQueue := w.mQueue ++ bs.map some } hflag (by simp [hq]) (le_refl _)
  simp only [hq, List.nil_append, List.length_map] at h ⊢
  rw [h]

/-- For buffers shorter than 65536 bytes the `WriteFile` calls carry exactly
the queued buffers, in the order they were queued. -/
theorem write_async_fifo_short (env : Env) (w : serialAdapter) (bs : List (List Nat))
    (hflag : w.mWriteThreadQuit = false) (hq : w.mQueue = [])
    (hshort : ∀ b ∈ bs, b.length < 65536) :
    writeSerialData env (pushAll w bs) =
      ({ w with log := w.log ++ bs.map (Event.writeFile w.mComFile) }, .running) := by
  rw [write_async_fifo env w bs hflag hq]
  have hmap : bs.map (writeEvent w.mComFile) = bs.map (Event.writeFile w.mComFile) := by
    apply List.map_congr_left
    intro b hb
    have hlen : b.length % 2 ^ 16 = b.length := Nat.mod_eq_of_lt (by simpa using hshort b hb)
    unfold writeEvent castWORD
    rw [hlen, List.take_length]
  rw [hmap]

/-- The same order holds however the pushes and the passes of the write loop
interleave: after any schedule, once the loop has drained the queue, the log
has gained one `WriteFile` per pushed buffer, in push order. -/
theorem write_async_fifo_interleaved (env : Env) (sched : List WriteSched) :
    ∀ (w : serialAdapter) (qs : List (List Nat)), w.mWriteThreadQuit = false →
      w.mQueue = qs.map some →
      writeSerialData env (runWriteSched env w sched) =
        ({ w with mQueue := [],
                  log := w.log ++ (qs ++ pushed sched).map (writeEvent w.mComFile) },
          .running) := by
  induction sched with
  | nil =>
    intro w qs hflag hq
    have h := writeSerialDataN_drain env qs qs.length w hflag hq (le_refl _)
    simp only [runWriteSched, pushed, List.append_nil, writeSerialData, hq, List.length_map]
    exact h
  | cons e rest ih =>
    intro w qs hflag hq
    cases e with
    | push b =>
      simp only [runWriteSched, pushed]
      refine (ih (write_async w (some b)).2 (qs ++ [b]) hflag ?_).trans ?_
      · simp [write_async, queuePush, hq]
      · simp [write_async]
    | pass =>
      simp only [runWriteSched, pushed]
      cases qs with
      | nil =>
        have hq2 : w.mQueue = [] := by simpa using hq
        have hiter : writeIter env w = (w, .running) := by
          simp [writeIter, queuePop, hq2]
        rw [hiter]
        exact ih w [] hflag hq
      | cons b qs =>
        have hq2 : w.mQueue = some b :: qs.map some := by simpa using hq
        have hiter : writeIter env w =
            ({ w with mQueue := qs.map some, log := w.log ++ [writeEvent w.mComFile b] },
              .running) := by
          simp [writeIter, queuePop, hq2, hflag, writeData_eq, emit, writeEvent]
        rw [hiter]
        refine (ih _ qs ?_ ?_).trans ?_
        · exact hflag
        · rfl
        · simp

/-- C3, evaluated: a buffer of 65536 bytes queued with `write_async` on the
opened adapter reaches the transport as one `WriteFile` call that carries no
byte at all, not the 65536 bytes of the buffer. -/
theorem write_async_long_buffer_truncated :
    (writeSerialData envPresent
        (write_async openedState (some (List.replicate 65536 0x41))).2).1.log =
      openedState.log ++ [.writeFile openedState.mComFile []] ∧
    (writeSerialData envPresent
        (write_async openedState (some (List.replicate 65536 0x41))).2).1.log ≠
      openedState.log ++ [.writeFile openedState.mComFile (List.replicate 65536 0x41)] := by
  have h := write_async_fifo envPresent openedState [List.replicate 65536 0x41]
    (by decide) (by decide)
  have hp : pushAll openedState [List.replicate 65536 0x41] =
      (write_async openedState (some (List.replicate 65536 0x41))).2 := rfl
  rw [hp] at h
  have hz : castWORD (List.replicate 65536 0x41).length = 0 := by
    rw [List.length_replicate]
    decide
  have key : (writeSerialData envPresent
      (write_async openedState (some (List.replicate 65536 0x41))).2).1.log =
      openedState.log ++ [.writeFile openedState.mComFile []] := by
    rw [h]
    simp only [List.map_cons, List.map_nil, writeEvent, hz, List.take_zero]
  refine ⟨key, ?_⟩
  rw [key]
  intro hc
  have h1 := (List.cons.inj (List.append_cancel_left hc)).1
  have h2 := (Event.writeFile.inj h1).2
  have h5 := congrArg List.length h2
  rw [List.length_replicate, List.length_nil] at h5
  exact absurd h5 (by decide)

theorem readIter_exited_iff (env : Env) (v : serialAdapter) :
    (readIter env v).2 = .exited ↔ v.mReadThreadQuit = true := by
  by_cases hv : v.mReadThreadQuit = true
  · simp [readIter, hv]
  · have hf : v.mReadThreadQuit = false := by simpa using hv
    unfold readIter
    rw [if_neg hv]
    simp only [hf]
    split_ifs <;> simp

/-- C9 as stated fails: on the opened adapter, with the read flag false and
every `ReadFile` failing at once with `ERROR_ACCESS_DENIED`, the pass of the
read loop does not return, and two passes issue two `ReadFile` calls. -/
theorem read_error_does_not_stop_loop :
    openedState.mReadThreadQuit = false ∧
    (envReadFails.readFile openedState.log.length).ret = false ∧
    (envReadFails.readFile openedState.log.length).lastError ≠ ERROR_IO_PENDING ∧
    (readIter envReadFails openedState).2 = .running ∧
    readSerialData envReadFails 2 openedState =
      ({ openedState with
          log := openedState.log ++ [.readFile (some 1), .readFile (some 1)] }, .running) := by
  decide

/-- C9, amended: in a pass of the read loop with the cancellation flag false
whose `ReadFile` fails with an error other than `ERROR_IO_PENDING`, no listener
is notified (the pass only logs the `ReadFile` call) and the loop does not
return: it goes on to the next pass, which checks the flag again and, the flag
being still false, issues another `ReadFile`. A pass returns exactly when it
finds the cancellation flag set. -/
theorem readIter_error_continues (env : Env) (w : serialAdapter)
    (hflag : w.mReadThreadQuit = false)
    (hret : (env.readFile w.log.length).ret = false)
    (herr : (env.readFile w.log.length).lastError ≠ ERROR_IO_PENDING) :
    readIter env w = (w.emit (.readFile w.mComFile), .running) ∧
    (∃ evs, (readSerialData env 2 w).1.log =
      w.log ++ [.readFile w.mComFile] ++ [.readFile w.mComFile] ++ evs) ∧
    (∀ v : serialAdapter, (readIter env v).2 = .exited ↔ v.mReadThreadQuit = true) := by
  have h1 : readIter env w = (w.emit (.readFile w.mComFile), .running) := by
    simp [readIter, hflag, hret, herr]
  refine ⟨h1, ?_, readIter_exited_iff env⟩
  simp only [readSerialData, h1]
  have hflag2 : (w.emit (.readFile w.mComFile)).mReadThreadQuit = false := hflag
  by_cases hlen :
      (if (env.readFile (w.emit (.readFile w.mComFile)).log.length).ret = false then
        if (env.readFile (w.emit (.readFile w.mComFile)).log.length).lastError = ERROR_IO_PENDING
        then castDWORD (env.readFile (w.emit (.readFile w.mComFile)).log.length).readLen else 0
      else castDWORD (env.readFile (w.emit (.readFile w.mComFile)).log.length).readLen) ≠ 0
  · refine ⟨(w.mListener.filter env.alive).map (fun l => Event.onData l
      (if (env.readFile (w.emit (.readFile w.mComFile)).log.length).ret = false then
        if (env.readFile (w.emit (.readFile w.mComFile)).log.length).lastError = ERROR_IO_PENDING
        then (env.readFile (w.emit (.readFile w.mComFile)).log.length).data % 256 else 0
      else (env.readFile (w.emit (.readFile w.mComFile)).log.length).data % 256)), ?_⟩
    simp only [readIter, hflag2, if_pos hlen]
    simp [notifyData, emit]
  · refine ⟨[], ?_⟩
    simp only [readIter, hflag2, if_neg hlen]
    simp [emit]

/-- C9 amended, at the opened adapter with every `ReadFile` failing. -/
theorem readIter_error_continues_witness :
    openedState.mReadThreadQuit = false ∧
    readIter envReadFails openedState =
      (openedState.emit (.readFile openedState.mComFile), .running) :=
  ⟨by decide, (readIter_error_continues envReadFails openedState (by decide) (by decide)
    (by decide)).1⟩

/-! ## The detect loop -/

/-- When the probe gives its disconnect verdict: `CreateFile` on the port
succeeds, or fails with `ERROR_FILE_NOT_FOUND`. A refusal with
`ERROR_ACCESS_DENIED` (the adapter still holds the port) and every other error
keep the loop running. -/
theorem checkPortAvaliable_success_iff (env : Env) (w : serialAdapter) :
    (checkPortAvaliable env w).1 = .SUCCESS ↔
      (env.createFile w.log.length w.mComPort = .opened ∨
       env.createFile w.log.length w.mComPort = .failed ERROR_FILE_NOT_FOUND) := by
  unfold checkPortAvaliable
  cases hcf : env.createFile w.log.length w.mComPort with
  | opened => simp
  | failed e =>
    by_cases h5 : e = ERROR_ACCESS_DENIED
    · subst h5
      simp [ERROR_ACCESS_DENIED, ERROR_FILE_NOT_FOUND]
    · by_cases h2 : e = ERROR_FILE_NOT_FOUND
      · subst h2
        simp [ERROR_ACCESS_DENIED, ERROR_FILE_NOT_FOUND]
      · simp [h5, h2]

/-- The disconnect pass on the set {1, 2, 7}: the probe, the two joins, then
`onClosed` on the live listeners 1 and 2 only; the handle 1 stays open. -/
theorem detect_disconnect_trace :
    (detectStep envUnplugged openedWithListeners).map (fun v => v.log) =
      some (openedWithListeners.log ++
        [.createFile 3 Option.none, .join .read, .join .write, .onClosed 1, .onClosed 2]) ∧
    (detectStep envUnplugged openedWithListeners).map (fun v => v.mDetectThread) =
      some (.finished 2) ∧
    (detectStep envUnplugged openedWithListeners).map (fun v => v.openHandles) = some [1] := by
  decide

/-! ## `close` -/

/-- C7: on an open adapter, `close` called from a thread that is neither the
read thread nor the detect thread comes back with SUCCESS: each of the three
joins comes back because the joined loop has returned, so no loop runs any
more. The adapter is left closed with the three thread objects empty and the
three cancellation flags false. The joins come first and `CloseHandle` on the
adapter's handle is the last event; it succeeds exactly when that handle was
open, and afterwards the handle is not among the open handles. -/
theorem close_when_open (env : Env) (w : serialAdapter) (caller : Nat)
    (hopen : w.mSerialOpend = true)
    (hr : some caller ≠ w.mReadThread.get_id) (hd : some caller ≠ w.mDetectThread.get_id) :
    ∃ w1, serialAdapter.close env w caller = some (.SUCCESS, w1) ∧
      w1.mSerialOpend = false ∧
      w1.mReadThread = .none ∧
      w1.mWriteThread = .none ∧
      w1.mDetectThread = .none ∧
      w1.mReadThread.isRunning = false ∧
      w1.mWriteThread.isRunning = false ∧
      w1.mDetectThread.isRunning = false ∧
      w1.mReadThreadQuit = false ∧
      w1.mWriteThreadQuit = false ∧
      w1.mDetectThreadQuit = false ∧
      (∃ ok, w1.log = w.log ++ joinEvents w ++ [.closeHandle w.mComFile ok] ∧
        (ok = true ↔ ∃ h, w.mComFile = some h ∧ h ∈ w.openHandles)) ∧
      (∀ h, w.mComFile = some h → h ∉ w1.openHandles) := by
  have hclose : serialAdapter.close env w caller =
      some (.SUCCESS, { (closeSerialPort (afterQuitDetect (afterQuitWrite
        (afterQuitRead w)))).2 with mSerialOpend := false }) := by
    simp [serialAdapter.close, hopen, hr, hd, quitReadThread_eq, quitWriteThread_eq,
      quitDetectThread_eq]
  refine ⟨_, hclose, rfl, ?_⟩
  cases hcf : w.mComFile with
  | none =>
    refine ⟨?_, ?_, ?_, ?_, ?_, ?_, ?_, ?_, ?_, ⟨false, ?_, ?_⟩, ?_⟩ <;>
      simp [closeSerialPort, closeHandle, hcf, emit, joinEvents, afterQuitRead, afterQuitWrite,
        afterQuitDetect, Thread.isRunning]
  | some h =>
    by_cases hin : h ∈ w.openHandles
    · refine ⟨?_, ?_, ?_, ?_, ?_, ?_, ?_, ?_, ?_, ⟨true, ?_, ?_⟩, ?_⟩ <;>
        simp [closeSerialPort, closeHandle, hcf, hin, emit, joinEvents, List.mem_filter,
          afterQuitRead, afterQuitWrite, afterQuitDetect, Thread.isRunning]
    · refine ⟨?_, ?_, ?_, ?_, ?_, ?_, ?_, ?_, ?_, ⟨false, ?_, ?_⟩, ?_⟩ <;>
        simp [closeSerialPort, closeHandle, hcf, hin, emit, joinEvents, afterQuitRead,
          afterQuitWrite, afterQuitDetect, Thread.isRunning]

/-- C7, at the opened adapter closed by the application thread 0. -/
theorem close_when_open_witness :
    openedState.mSerialOpend = true ∧
    some 0 ≠ openedState.mReadThread.get_id ∧ some 0 ≠ openedState.mDetectThread.get_id ∧
    ∃ w1, serialAdapter.close envPresent openedState 0 = some (.SUCCESS, w1) ∧
      w1.mSerialOpend = false :=
  ⟨by decide, by decide, by decide,
    (close_when_open envPresent openedState 0 (by decide) (by decide) (by decide)).elim
      (fun w1 h => ⟨w1, h.1, h.2.1⟩)⟩

/-- Closing the opened adapter: the three joins, then the release of handle 1. -/
theorem close_trace :
    (serialAdapter.close envPresent openedState 0).map (fun r => (r.1, r.2.log)) =
      some (.SUCCESS, openedState.log ++
        [.join .read, .join .write, .join .detect, .closeHandle (some 1) true]) ∧
    (serialAdapter.close envPresent openedState 0).map (fun r => r.2.openHandles) = some [] := by
  decide

/-! ## Handles over the lifecycle -/

/-- C6, evaluated: after a successful `open` and one pass of the detect loop
that finds the device removed, the adapter is closed while the handle 1 it
opened is still open; a following `close` returns SUCCESS without any effect,
so the handle stays open; a second successful `open` leaves the adapter open
with two open handles. -/
theorem detect_disconnect_leaves_handle_open :
    (run envUnplugged serialAdapter.init
      [.open 0 3 9600 .NO_PARITY .DATA_BITS_8 .STOP_BITS_1, .detect]).map
        (fun v => (v.mSerialOpend, v.openHandles)) = some (false, [1]) ∧
    (run envUnplugged serialAdapter.init
      [.open 0 3 9600 .NO_PARITY .DATA_BITS_8 .STOP_BITS_1, .detect, .close 0]).map
        (fun v => (v.mSerialOpend, v.openHandles.length)) = some (false, 1) ∧
    (run envReplugged serialAdapter.init
      [.open 0 3 9600 .NO_PARITY .DATA_BITS_8 .STOP_BITS_1, .detect,
       .open 0 3 9600 .NO_PARITY .DATA_BITS_8 .STOP_BITS_1]).map
        (fun v => (v.mSerialOpend, v.openHandles)) = some (true, [1, 2]) := by
  decide

/-- What holds of the handles over every lifecycle step: whenever the adapter is
open, its handle member is one of the open handles. -/
theorem handleLive_step (env : Env) (w : serialAdapter) (st : Step) (hw : handleLive w)
    (w1 : serialAdapter) (hstep : step env w st = some w1) : handleLive w1 := by
  cases st with
  | «open» caller port nBaud nParity nByteSize nStopBit =>
    simp only [step, serialAdapter.open] at hstep
    by_cases hopen : w.mSerialOpend = true
    · simp only [hopen, if_true, Option.map_some', Option.some.injEq] at hstep
      subst hstep
      exact hw
    · have hclosed : w.mSerialOpend = false := by simpa using hopen
      simp only [hclosed, Bool.false_eq_true, if_false] at hstep
      split at hstep
      · simp only [Option.map_some', Option.some.injEq] at hstep
        subst hstep
        intro h
        simp [hclosed] at h
      · unfold openSerialPort at hstep
        cases hcf : env.createFile w.log.length port with
        | failed e =>
          simp only [hcf, Option.map_some', Option.some.injEq] at hstep
          subst hstep
          intro h
          simp [hclosed] at h
        | opened =>
          simp only [hcf, SetupSerialPort, emit] at hstep
          generalize env.setupComm _ = r at hstep
          cases r <;>
            simp only [quitReadThread_eq, quitDetectThread_eq, quitWriteThread_eq,
              Option.map_some', Option.some.injEq] at hstep <;>
            subst hstep <;>
            simp [handleLive, hclosed, afterQuitRead, afterQuitDetect, afterQuitWrite,
              startThread]
  | close caller =>
    simp only [step, serialAdapter.close] at hstep
    by_cases hopen : w.mSerialOpend = true
    · simp only [hopen, Bool.true_eq_false, if_false] at hstep
      split at hstep
      · simp only [Option.map_some', Option.some.injEq] at hstep
        subst hstep
        exact hw
      · simp only [quitReadThread_eq, quitDetectThread_eq, quitWriteThread_eq,
          Option.map_some', Option.some.injEq] at hstep
        subst hstep
        intro h
        simp at h
    · have hclosed : w.mSerialOpend = false := by simpa using hopen
      simp only [hclosed, if_true, Option.map_some', Option.some.injEq] at hstep
      subst hstep
      exact hw
  | detect =>
    simp only [step, detectStep] at hstep
    cases hT : w.mDetectThread with
    | none =>
      simp only [hT, Option.some.injEq] at hstep
      subst hstep
      exact hw
    | finished id =>
      simp only [hT, Option.some.injEq] at hstep
      subst hstep
      exact hw
    | running id =>
      simp only [hT] at hstep
      by_cases hflag : w.mDetectThreadQuit = true
      · rw [detectIter_quit env w hflag] at hstep
        simp only [Option.some.injEq] at hstep
        subst hstep
        simpa [handleLive] using hw
      · have hflag2 : w.mDetectThreadQuit = false := by simpa using hflag
        by_cases hprobe : (checkPortAvaliable env w).1 = .SUCCESS
        · have hiter : detectIter env w =
              some (notifyClosed env
                { afterQuitWrite (afterQuitRead (checkPortAvaliable env w).2) with
                  mSerialOpend := false }, .exited) := by
            simp [detectIter, hflag2, hprobe, quitReadThread_eq, quitWriteThread_eq]
          rw [hiter] at hstep
          simp only [Option.some.injEq] at hstep
          subst hstep
          intro h
          simp [notifyClosed] at h
        · have hiter : detectIter env w = some ((checkPortAvaliable env w).2, .running) := by
            simp [detectIter, hflag2, hprobe]
          rw [hiter] at hstep
          simp only [Option.some.injEq] at hstep
          subst hstep
          have hfail : ∃ e, env.createFile w.log.length w.mComPort = .failed e := by
            cases hcf : env.createFile w.log.length w.mComPort with
            | opened =>
              exact absurd ((checkPortAvaliable_success_iff env w).mpr (Or.inl hcf)) hprobe
            | failed e => exact ⟨e, rfl⟩
          obtain ⟨e, he⟩ := hfail
          have hst : (checkPortAvaliable env w).2 = w.emit (.createFile w.mComPort Option.none) := by
            unfold checkPortAvaliable
            rw [he]
            simp only
            split
            · rfl
            · split <;> rfl
          rw [hst]
          simpa [handleLive, emit] using hw

/-- In every state reached from the fresh adapter by calls of `open` and
`close` and passes of the detect loop, an open adapter holds an open handle. -/
theorem handleLive_run (env : Env) (steps : List Step) (w1 : serialAdapter)
    (hrun : run env serialAdapter.init steps = some w1) : handleLive w1 := by
  have hgen : ∀ (steps : List Step) (w v : serialAdapter), handleLive w →
      run env w steps = some v → handleLive v := by
    intro steps
    induction steps with
    | nil =>
      intro w v hw hv
      simp only [run, Option.some.injEq] at hv
      subst hv
      exact hw
    | cons st rest ih =>
      intro w v hw hv
      simp only [run] at hv
      cases hs : step env w st with
      | none => simp [hs] at hv
      | some w2 =>
        simp only [hs] at hv
        exact ih w2 v (handleLive_step env w st hw w2 hs) hv
  apply hgen steps serialAdapter.init w1 _ hrun
  intro h
  simp [serialAdapter.init] at h

/-- Every lifecycle step comes to its end: none of the joins in `open`, `close`
and the detect pass waits for ever. -/
theorem step_returns (env : Env) (w : serialAdapter) (st : Step) :
    ∃ w1, step env w st = some w1 := by
  cases st with
  | «open» caller port nBaud nParity nByteSize nStopBit =>
    simp only [step, serialAdapter.open]
    split
    · exact ⟨_, rfl⟩
    · split
      · exact ⟨_, rfl⟩
      · split <;>
          simp [quitReadThread_eq, quitDetectThread_eq, quitWriteThread_eq]
  | close caller =>
    simp only [step, serialAdapter.close]
    split
    · exact ⟨_, rfl⟩
    · split
      · exact ⟨_, rfl⟩
      · simp [quitReadThread_eq, quitDetectThread_eq, quitWriteThread_eq]
  | detect =>
    simp only [step, detectStep]
    cases hT : w.mDetectThread with
    | none => exact ⟨_, rfl⟩
    | finished id => exact ⟨_, rfl⟩
    | running id =>
      have hd : ∃ r, detectIter env w = some r := by
        simp only [detectIter]
        split
        · exact ⟨_, rfl⟩
        · split
          · simp [quitReadThread_eq, quitWriteThread_eq]
          · exact ⟨_, rfl⟩
      obtain ⟨⟨v, st⟩, hv⟩ := hd
      simp only [hv]
      cases st <;> exact ⟨_, rfl⟩

end scl
